import Mathlib

/-!
Canon LiDE 210 button poller (lide210.c)

A shallow embedding of `lide210.c`: the signal-driven exit flag
(`global_doexit`, `exithandler`, `install_handlers`), the bus/device
enumeration of `main`, the poll loop around `usb_interrupt_read`, and the
bit tests that print the button names.

The program is deterministic once its environment is fixed.  The environment
is made explicit:

* `MYDEBUG`            whether the file was compiled with `-DMYDEBUG`;
* `rINT`, `rTERM`      the return values of the two `sigaction` calls;
* `usb_open`           which devices `usb_open` can open;
* the enumeration      a list of buses, each with its list of devices;
* the read script      what each successive `usb_interrupt_read` answers, and
                       whether a termination signal arrives meanwhile.

Everything the program does to the outside (library calls on a device and
writes to `stderr`) is recorded as a list of `Event`s.
-/

namespace Lide210

/-! ## Constants -/

/-- Canon Inc. (`#define USBDEV_VENDOR_CANON 0x04a9`). -/
def USBDEV_VENDOR_CANON : Nat := 0x04a9

/-- CanoScan LiDE 210 (`#define USBDEV_PRODUCT_LIDE210 0x190a`). -/
def USBDEV_PRODUCT_LIDE210 : Nat := 0x190a

/-- Most left button (`UINT8_C(0x10)`). -/
def LIDE210_BUTTON_PDF : Nat := 0x10

/-- Second button (`UINT8_C(0x01)`). -/
def LIDE210_BUTTON_PDFNEXT : Nat := 0x01

/-- Middle button (`UINT8_C(0x02)`). -/
def LIDE210_BUTTON_AUTOSCAN : Nat := 0x02

/-- Fourth button (`UINT8_C(0x04)`). -/
def LIDE210_BUTTON_COPY : Nat := 0x04

/-- Most right button (`UINT8_C(0x08)`). -/
def LIDE210_BUTTON_EMAIL : Nat := 0x08

/-- The value of `ETIMEDOUT` in the Linux `errno.h` the program is built against. -/
def ETIMEDOUT : Int := 110

/-- The macro `ISPRESSED(x,y)`: both operands are cast to `uint8_t`, and the
test is whether their bitwise AND is non-zero. -/
def ISPRESSED (x y : Nat) : Bool := ((x % 256) &&& (y % 256)) != 0

/-! ## Data model -/

/-- The fields of `struct usb_device` the program reads
(`descriptor.idVendor`, `descriptor.idProduct`, `devnum`). -/
structure usb_device where
  idVendor : Nat
  idProduct : Nat
  devnum : Nat
deriving DecidableEq, Repr

/-- The fields of `struct usb_bus` the program reads; the linked list
`bus->devices` / `dev->next` is a list. -/
structure usb_bus where
  location : Nat
  devices : List usb_device
deriving DecidableEq, Repr

/-- What is written to `stderr`, one constructor per format string of the source. -/
inductive Msg where
  /-- Line 91: "using scanner on bus=%u, dev=%u  ...\n". -/
  | usingScanner (location devnum : Nat)
  /-- Line 106: "\ndata=0x%02x ( ". -/
  | data (byte : Nat)
  /-- Lines 107-111: a button name followed by a blank, such as "PDF ". -/
  | label (text : String)
  /-- Line 112: ")\n". -/
  | dataEnd
  /-- Line 114: ".". -/
  | idle
  /-- Line 101: "error %i received - %s", with the code and `usb_strerror()`. -/
  | error (i : Int) (description : String)
  /-- Line 118: "\nreleasing scanner on bus=%u, dev=%u  ...bye...\n". -/
  | releasing (location devnum : Nat)
deriving DecidableEq, Repr

/-- The externally visible actions of the program.  A handle is identified
with the device it was opened on. -/
inductive Event where
  /-- The call `usb_open(dev)` and whether it returned a handle. -/
  | usb_open (dev : usb_device) (ok : Bool)
  /-- The call `usb_interrupt_read` on the handle of `dev`, and its return value. -/
  | usb_interrupt_read (dev : usb_device) (i : Int)
  /-- A write to `stderr`. -/
  | fprintf (m : Msg)
  /-- The call `fflush(stderr)`. -/
  | fflush
  /-- The call `usb_close` on the handle of `dev`. -/
  | usb_close (dev : usb_device)
deriving DecidableEq, Repr

/-- One answer of the environment to `usb_interrupt_read`: the return value
`result`, the byte left in `data` (read by the program only when `result` is
`1`), the text `usb_strerror()` would give afterwards, and whether a
termination signal is delivered (so that `exithandler` runs) before the flag
is next loaded. -/
structure ReadOutcome where
  result : Int
  data : Nat
  usb_strerror : String
  signal : Bool
deriving DecidableEq, Repr

/-- Where a run stands: `running` when the read script was used up
inside a poll loop that had not left yet, `exited` when control left. -/
inductive Status where
  | running
  | exited
deriving DecidableEq, Repr

/-- The state handed from one piece of the program to the next: the events so
far, the value of `global_doexit`, the unused part of the read script, and
whether control came out. -/
structure Run where
  events : List Event
  global_doexit : Bool
  rest : List ReadOutcome
  status : Status
deriving DecidableEq, Repr

/-! ## The program -/

/-- The macro `fdebugf`: `fprintf` when `MYDEBUG` is defined, nothing otherwise. -/
def fdebugf (MYDEBUG : Bool) (m : Msg) : List Event :=
  if MYDEBUG then [Event.fprintf m] else []

/-- The signal handler `exithandler`: stores `true` into `global_doexit`. -/
def exithandler (_global_doexit : Bool) : Bool := true

/-- The function `install_handlers`.  `rINT` and `rTERM` are the return values of
`sigaction(SIGINT, ..)` and `sigaction(SIGTERM, ..)`; `sig1` (`sig2`) says
that a signal ran `exithandler` after the first (second) `sigaction` call.
The result is the value of `global_doexit` on return. -/
def install_handlers (rINT rTERM : Int) (sig1 sig2 : Bool) : Bool :=
  let g0 := false
  let g1 := if rINT = -1 then true else g0
  let g2 := if sig1 then exithandler g1 else g1
  let g3 := if rTERM = -1 then true else g2
  let g4 := if sig2 then exithandler g3 else g3
  g4

/-- Lines 106-112: what is printed for a one-byte report `data`. -/
def report (MYDEBUG : Bool) (data : Nat) : List Event :=
  fdebugf MYDEBUG (Msg.data data)
  ++ (if ISPRESSED data LIDE210_BUTTON_PDF then fdebugf MYDEBUG (Msg.label "PDF ") else [])
  ++ (if ISPRESSED data LIDE210_BUTTON_PDFNEXT then fdebugf MYDEBUG (Msg.label "Next ") else [])
  ++ (if ISPRESSED data LIDE210_BUTTON_AUTOSCAN then fdebugf MYDEBUG (Msg.label "Autoscan ") else [])
  ++ (if ISPRESSED data LIDE210_BUTTON_COPY then fdebugf MYDEBUG (Msg.label "Copy ") else [])
  ++ (if ISPRESSED data LIDE210_BUTTON_EMAIL then fdebugf MYDEBUG (Msg.label "EMail ") else [])
  ++ fdebugf MYDEBUG Msg.dataEnd

/-- Lines 105-116: what follows a read that did not make the loop leave: the
report when exactly one byte came, else the idle marker and `fflush`. -/
def iterationOutput (MYDEBUG : Bool) (r : ReadOutcome) : List Event :=
  if r.result = 1 then report MYDEBUG r.data
  else fdebugf MYDEBUG Msg.idle ++ [Event.fflush]

/-- Lines 92-117: the `while (true)` loop on an opened handle.  Each iteration
loads `global_doexit` and breaks if it is set; otherwise it issues one read,
taking the next answer of the script.  With the script used up and the flag
clear the loop is still `running`. -/
def pollLoop (MYDEBUG : Bool) (dev : usb_device) : List ReadOutcome → Bool → Run
  | [], global_doexit =>
    if global_doexit then ⟨[], global_doexit, [], Status.exited⟩
    else ⟨[], global_doexit, [], Status.running⟩
  | r :: rs, global_doexit =>
    if global_doexit then ⟨[], global_doexit, r :: rs, Status.exited⟩
    else
      let i := r.result
      let g := if r.signal then exithandler global_doexit else global_doexit
      if i < 0 ∧ i ≠ -ETIMEDOUT then
        ⟨[Event.usb_interrupt_read dev i, Event.fprintf (Msg.error i r.usb_strerror)],
          g, rs, Status.exited⟩
      else
        let k := pollLoop MYDEBUG dev rs g
        ⟨Event.usb_interrupt_read dev i :: (iterationOutput MYDEBUG r ++ k.events),
          k.global_doexit, k.rest, k.status⟩

/-- Lines 88-120: `usb_open` on a matching device and, when a handle came
back, the notice, the poll loop, the release notice and `usb_close`. -/
def useScanner (MYDEBUG : Bool) (usb_open : usb_device → Bool) (bus : usb_bus)
    (dev : usb_device) (global_doexit : Bool) (reads : List ReadOutcome) : Run :=
  if usb_open dev then
    let k := pollLoop MYDEBUG dev reads global_doexit
    match k.status with
    | Status.running =>
      ⟨Event.usb_open dev true :: (fdebugf MYDEBUG (Msg.usingScanner bus.location dev.devnum)
          ++ k.events),
        k.global_doexit, k.rest, Status.running⟩
    | Status.exited =>
      ⟨Event.usb_open dev true :: (fdebugf MYDEBUG (Msg.usingScanner bus.location dev.devnum)
          ++ k.events
          ++ fdebugf MYDEBUG (Msg.releasing bus.location dev.devnum)
          ++ [Event.usb_close dev]),
        k.global_doexit, k.rest, Status.exited⟩
  else
    ⟨[Event.usb_open dev false], global_doexit, reads, Status.exited⟩

/-- Lines 85-124: the inner `for` loop over the devices of one bus.  The
`break` of line 122 sits in the vendor/product branch after the
`if (assigned(handle))` block, so the loop ends at the first matching device
whether or not it could be opened. -/
def scanDevices (MYDEBUG : Bool) (usb_open : usb_device → Bool) (bus : usb_bus)
    (global_doexit : Bool) (reads : List ReadOutcome) : List usb_device → Run
  | [] => ⟨[], global_doexit, reads, Status.exited⟩
  | dev :: devs =>
    if dev.idVendor = USBDEV_VENDOR_CANON ∧ dev.idProduct = USBDEV_PRODUCT_LIDE210 then
      useScanner MYDEBUG usb_open bus dev global_doexit reads
    else
      scanDevices MYDEBUG usb_open bus global_doexit reads devs

/-- Lines 84-125: the outer `for` loop over the buses.  Nothing leaves it
early: after the inner loop of one bus it goes on with `bus->next`. -/
def scanBusses (MYDEBUG : Bool) (usb_open : usb_device → Bool) :
    List usb_bus → Bool → List ReadOutcome → Run
  | [], global_doexit, reads => ⟨[], global_doexit, reads, Status.exited⟩
  | bus :: more, global_doexit, reads =>
    let k := scanDevices MYDEBUG usb_open bus global_doexit reads bus.devices
    match k.status with
    | Status.running => k
    | Status.exited =>
      let k2 := scanBusses MYDEBUG usb_open more k.global_doexit k.rest
      ⟨k.events ++ k2.events, k2.global_doexit, k2.rest, k2.status⟩

/-- The function `main`: `install_handlers`, then the enumeration. -/
def main (MYDEBUG : Bool) (rINT rTERM : Int) (sig1 sig2 : Bool)
    (usb_open : usb_device → Bool) (busses : List usb_bus) (reads : List ReadOutcome) : Run :=
  scanBusses MYDEBUG usb_open busses (install_handlers rINT rTERM sig1 sig2) reads

/-! ## Observations on an event list -/

/-- The messages written to `stderr`, in order. -/
def writes (evs : List Event) : List Msg :=
  evs.filterMap fun e => match e with
    | Event.fprintf m => some m
    | _ => none

/-- The button names written, in order. -/
def labels (evs : List Event) : List String :=
  (writes evs).filterMap fun m => match m with
    | Msg.label s => some s
    | _ => none

/-- The return values of the reads issued, in order. -/
def readResults (evs : List Event) : List Int :=
  evs.filterMap fun e => match e with
    | Event.usb_interrupt_read _ i => some i
    | _ => none

/-- The devices `usb_open` was called on, in order. -/
def openAttempts (evs : List Event) : List usb_device :=
  evs.filterMap fun e => match e with
    | Event.usb_open d _ => some d
    | _ => none

/-- The devices `usb_close` was called for, in order. -/
def closes (evs : List Event) : List usb_device :=
  evs.filterMap fun e => match e with
    | Event.usb_close d => some d
    | _ => none

/-- All devices of the enumeration, bus after bus. -/
def enumerated (busses : List usb_bus) : List usb_device :=
  (busses.map usb_bus.devices).flatten

/-- A LiDE 210 with device number `n`. -/
def lide (n : Nat) : usb_device := ⟨USBDEV_VENDOR_CANON, USBDEV_PRODUCT_LIDE210, n⟩

/-- Every message written is the error line of a negative, non-timeout answer
of the script. -/
def ErrorLinesOnly (reads : List ReadOutcome) (evs : List Event) : Prop :=
  ∀ m ∈ writes evs, ∃ r ∈ reads,
    r.result < 0 ∧ r.result ≠ -ETIMEDOUT ∧ m = Msg.error r.result r.usb_strerror

/-! ## Observations of the pieces -/

theorem readResults_append (xs ys : List Event) :
    readResults (xs ++ ys) = readResults xs ++ readResults ys := by
  simp [readResults]

theorem readResults_cons_read (dev : usb_device) (i : Int) (xs : List Event) :
    readResults (Event.usb_interrupt_read dev i :: xs) = i :: readResults xs := by
  simp [readResults]

theorem readResults_fdebugf (MYDEBUG : Bool) (m : Msg) : readResults (fdebugf MYDEBUG m) = [] := by
  cases MYDEBUG <;> simp [readResults, fdebugf]

theorem readResults_report (MYDEBUG : Bool) (b : Nat) : readResults (report MYDEBUG b) = [] := by
  unfold report
  simp only [readResults_append, readResults_fdebugf]
  split_ifs <;> simp [readResults_fdebugf] <;> simp [readResults]

theorem readResults_iterationOutput (MYDEBUG : Bool) (r : ReadOutcome) :
    readResults (iterationOutput MYDEBUG r) = [] := by
  unfold iterationOutput
  split_ifs
  · exact readResults_report _ _
  · simp [readResults_append, readResults_fdebugf]; simp [readResults]

theorem closes_append (xs ys : List Event) : closes (xs ++ ys) = closes xs ++ closes ys := by
  simp [closes]

theorem closes_fdebugf (MYDEBUG : Bool) (m : Msg) : closes (fdebugf MYDEBUG m) = [] := by
  cases MYDEBUG <;> simp [closes, fdebugf]

theorem closes_report (MYDEBUG : Bool) (b : Nat) : closes (report MYDEBUG b) = [] := by
  unfold report
  simp only [closes_append, closes_fdebugf]
  split_ifs <;> simp [closes_fdebugf] <;> simp [closes]

theorem closes_iterationOutput (MYDEBUG : Bool) (r : ReadOutcome) :
    closes (iterationOutput MYDEBUG r) = [] := by
  unfold iterationOutput
  split_ifs
  · exact closes_report _ _
  · simp [closes_append, closes_fdebugf]; simp [closes]

theorem openAttempts_append (xs ys : List Event) :
    openAttempts (xs ++ ys) = openAttempts xs ++ openAttempts ys := by
  simp [openAttempts]

theorem openAttempts_fdebugf (MYDEBUG : Bool) (m : Msg) :
    openAttempts (fdebugf MYDEBUG m) = [] := by
  cases MYDEBUG <;> simp [openAttempts, fdebugf]

theorem openAttempts_report (MYDEBUG : Bool) (b : Nat) :
    openAttempts (report MYDEBUG b) = [] := by
  unfold report
  simp only [openAttempts_append, openAttempts_fdebugf]
  split_ifs <;> simp [openAttempts_fdebugf] <;> simp [openAttempts]

theorem openAttempts_iterationOutput (MYDEBUG : Bool) (r : ReadOutcome) :
    openAttempts (iterationOutput MYDEBUG r) = [] := by
  unfold iterationOutput
  split_ifs
  · exact openAttempts_report _ _
  · simp [openAttempts_append, openAttempts_fdebugf]; simp [openAttempts]

theorem writes_append (xs ys : List Event) : writes (xs ++ ys) = writes xs ++ writes ys := by
  simp [writes]

theorem writes_fdebugf_off (m : Msg) : writes (fdebugf false m) = [] := by
  simp [writes, fdebugf]

theorem writes_fdebugf_on (m : Msg) : writes (fdebugf true m) = [m] := by
  simp [writes, fdebugf]

theorem writes_report_off (b : Nat) : writes (report false b) = [] := by
  unfold report
  simp only [writes_append, writes_fdebugf_off]
  split_ifs <;> simp [writes_fdebugf_off] <;> simp [writes]

theorem writes_iterationOutput_off (r : ReadOutcome) :
    writes (iterationOutput false r) = [] := by
  unfold iterationOutput
  split_ifs
  · exact writes_report_off _
  · simp [writes_append, writes_fdebugf_off]; simp [writes]

theorem writes_iterationOutput_idle (r : ReadOutcome) (h : r.result ≠ 1) :
    writes (iterationOutput true r) = [Msg.idle] := by
  simp [iterationOutput, h, writes_append, writes_fdebugf_on]
  simp [writes]

/-! ## The decoder -/

theorem labels_report (b : Nat) :
    labels (report true b)
      = (if ISPRESSED b LIDE210_BUTTON_PDF then ["PDF "] else [])
        ++ (if ISPRESSED b LIDE210_BUTTON_PDFNEXT then ["Next "] else [])
        ++ (if ISPRESSED b LIDE210_BUTTON_AUTOSCAN then ["Autoscan "] else [])
        ++ (if ISPRESSED b LIDE210_BUTTON_COPY then ["Copy "] else [])
        ++ (if ISPRESSED b LIDE210_BUTTON_EMAIL then ["EMail "] else []) := by
  cases h1 : ISPRESSED b LIDE210_BUTTON_PDF <;>
  cases h2 : ISPRESSED b LIDE210_BUTTON_PDFNEXT <;>
  cases h3 : ISPRESSED b LIDE210_BUTTON_AUTOSCAN <;>
  cases h4 : ISPRESSED b LIDE210_BUTTON_COPY <;>
  cases h5 : ISPRESSED b LIDE210_BUTTON_EMAIL <;>
  simp [labels, writes, report, fdebugf, h1, h2, h3, h4, h5]

set_option maxRecDepth 100000 in
theorem no_button_bit_iff : ∀ b < 256,
    ((ISPRESSED b LIDE210_BUTTON_PDF || ISPRESSED b LIDE210_BUTTON_PDFNEXT
      || ISPRESSED b LIDE210_BUTTON_AUTOSCAN || ISPRESSED b LIDE210_BUTTON_COPY
      || ISPRESSED b LIDE210_BUTTON_EMAIL) = false ↔ b &&& 0x1F = 0) := by
  decide

/-- The report 0x10 names PDF alone. -/
theorem labels_of_0x10 :
    labels (pollLoop true (lide 1) [⟨1, 0x10, "", false⟩] false).events = ["PDF "] := by
  decide

/-- The report 0x03 names Next and Autoscan. -/
theorem labels_of_0x03 :
    labels (pollLoop true (lide 1) [⟨1, 0x03, "", false⟩] false).events
      = ["Next ", "Autoscan "] := by
  decide

/-- The report 0x1F names all five buttons, PDF first. -/
theorem labels_of_0x1F :
    labels (pollLoop true (lide 1) [⟨1, 0x1F, "", false⟩] false).events
      = ["PDF ", "Next ", "Autoscan ", "Copy ", "EMail "] := by
  decide

/-- C6 as stated fails: the byte 0x20 is not zero, yet no button name is
written for it. -/
theorem labels_empty_for_0x20 :
    ¬ (labels (pollLoop true (lide 1) [⟨1, 0x20, "", false⟩] false).events = []
        ↔ (0x20 : Nat) = 0) := by
  decide

/-! ## The poll loop -/

theorem pollLoop_flag_set (MYDEBUG : Bool) (dev : usb_device) (reads : List ReadOutcome) :
    pollLoop MYDEBUG dev reads true = ⟨[], true, reads, Status.exited⟩ := by
  cases reads <;> simp [pollLoop]

theorem pollLoop_nil (MYDEBUG : Bool) (dev : usb_device) :
    pollLoop MYDEBUG dev [] false = ⟨[], false, [], Status.running⟩ := by
  simp [pollLoop]

theorem pollLoop_cons_fatal (MYDEBUG : Bool) (dev : usb_device) (r : ReadOutcome)
    (rs : List ReadOutcome) (hf : r.result < 0 ∧ r.result ≠ -ETIMEDOUT) :
    pollLoop MYDEBUG dev (r :: rs) false
      = ⟨[Event.usb_interrupt_read dev r.result,
            Event.fprintf (Msg.error r.result r.usb_strerror)],
          r.signal, rs, Status.exited⟩ := by
  cases hs : r.signal <;> simp [pollLoop, hf, hs, exithandler]

theorem pollLoop_cons_go (MYDEBUG : Bool) (dev : usb_device) (r : ReadOutcome)
    (rs : List ReadOutcome) (hf : ¬ (r.result < 0 ∧ r.result ≠ -ETIMEDOUT)) :
    pollLoop MYDEBUG dev (r :: rs) false
      = ⟨Event.usb_interrupt_read dev r.result
            :: (iterationOutput MYDEBUG r ++ (pollLoop MYDEBUG dev rs r.signal).events),
          (pollLoop MYDEBUG dev rs r.signal).global_doexit,
          (pollLoop MYDEBUG dev rs r.signal).rest,
          (pollLoop MYDEBUG dev rs r.signal).status⟩ := by
  cases hs : r.signal <;> simp [pollLoop, hf, hs, exithandler]

theorem pollLoop_running (MYDEBUG : Bool) (dev : usb_device) (reads : List ReadOutcome) :
    ∀ g, (pollLoop MYDEBUG dev reads g).status = Status.running →
      (pollLoop MYDEBUG dev reads g).global_doexit = false
        ∧ (pollLoop MYDEBUG dev reads g).rest = [] := by
  induction reads with
  | nil => intro g; cases g <;> simp [pollLoop]
  | cons r rs ih =>
    intro g h
    cases g with
    | true => simp [pollLoop_flag_set] at h
    | false =>
      by_cases hf : r.result < 0 ∧ r.result ≠ -ETIMEDOUT
      · simp [pollLoop_cons_fatal _ _ _ _ hf] at h
      · rw [pollLoop_cons_go _ _ _ _ hf] at h ⊢
        exact ih _ h

theorem pollLoop_append (MYDEBUG : Bool) (dev : usb_device) (more : List ReadOutcome)
    (pre : List ReadOutcome) :
    ∀ g, (pollLoop MYDEBUG dev pre g).status = Status.running →
      pollLoop MYDEBUG dev (pre ++ more) g
        = ⟨(pollLoop MYDEBUG dev pre g).events ++ (pollLoop MYDEBUG dev more false).events,
            (pollLoop MYDEBUG dev more false).global_doexit,
            (pollLoop MYDEBUG dev more false).rest,
            (pollLoop MYDEBUG dev more false).status⟩ := by
  induction pre with
  | nil => intro g; cases g <;> simp [pollLoop_flag_set, pollLoop_nil]
  | cons r rs ih =>
    intro g h
    cases g with
    | true => simp [pollLoop_flag_set] at h
    | false =>
      by_cases hf : r.result < 0 ∧ r.result ≠ -ETIMEDOUT
      · simp [pollLoop_cons_fatal _ _ _ _ hf] at h
      · rw [pollLoop_cons_go _ _ _ _ hf] at h
        rw [List.cons_append, pollLoop_cons_go _ _ _ _ hf, ih _ h, pollLoop_cons_go _ _ _ _ hf]
        simp

theorem pollLoop_rest_suffix (MYDEBUG : Bool) (dev : usb_device) (reads : List ReadOutcome) :
    ∀ g, (pollLoop MYDEBUG dev reads g).rest <:+ reads := by
  induction reads with
  | nil => intro g; cases g <;> simp [pollLoop]
  | cons r rs ih =>
    intro g
    cases g with
    | true => simp [pollLoop_flag_set]
    | false =>
      by_cases hf : r.result < 0 ∧ r.result ≠ -ETIMEDOUT
      · rw [pollLoop_cons_fatal _ _ _ _ hf]
        exact List.suffix_cons r rs
      · rw [pollLoop_cons_go _ _ _ _ hf]
        exact (ih _).trans (List.suffix_cons r rs)

theorem pollLoop_signal_stops (MYDEBUG : Bool) (dev : usb_device) (i : Int) (d : Nat)
    (s : String) (post : List ReadOutcome) (pre : List ReadOutcome) :
    ∀ g, (pollLoop MYDEBUG dev (pre ++ ⟨i, d, s, true⟩ :: post) g).status = Status.exited
      ∧ post <:+ (pollLoop MYDEBUG dev (pre ++ ⟨i, d, s, true⟩ :: post) g).rest
      ∧ (readResults (pollLoop MYDEBUG dev (pre ++ ⟨i, d, s, true⟩ :: post) g).events).length
          ≤ pre.length + 1 := by
  induction pre with
  | nil =>
    intro g
    cases g with
    | true => simp [pollLoop_flag_set, readResults]
    | false =>
      by_cases hf : i < 0 ∧ i ≠ -ETIMEDOUT
      · rw [List.nil_append, pollLoop_cons_fatal _ _ _ _ hf]
        simp [readResults]
      · rw [List.nil_append, pollLoop_cons_go _ _ _ _ hf, pollLoop_flag_set]
        simp [readResults_cons_read, readResults_iterationOutput]
  | cons r rs ih =>
    intro g
    cases g with
    | true =>
      rw [pollLoop_flag_set]
      refine ⟨rfl, ?_, by simp [readResults]⟩
      exact ((List.suffix_cons _ post).trans (List.suffix_append rs _)).trans
        (List.suffix_cons r _)
    | false =>
      by_cases hf : r.result < 0 ∧ r.result ≠ -ETIMEDOUT
      · rw [List.cons_append, pollLoop_cons_fatal _ _ _ _ hf]
        refine ⟨rfl, ?_, ?_⟩
        · exact (List.suffix_cons _ post).trans (List.suffix_append rs _)
        · simp [readResults]
      · rw [List.cons_append, pollLoop_cons_go _ _ _ _ hf]
        obtain ⟨h1, h2, h3⟩ := ih r.signal
        refine ⟨h1, h2, ?_⟩
        simp only [readResults_cons_read, readResults_append, readResults_iterationOutput,
          List.nil_append, List.length_cons]
        omega

theorem pollLoop_closes (MYDEBUG : Bool) (dev : usb_device) (reads : List ReadOutcome) :
    ∀ g, closes (pollLoop MYDEBUG dev reads g).events = []
      ∧ openAttempts (pollLoop MYDEBUG dev reads g).events = [] := by
  induction reads with
  | nil => intro g; cases g <;> simp [pollLoop, closes, openAttempts]
  | cons r rs ih =>
    intro g
    cases g with
    | true => simp [pollLoop_flag_set, closes, openAttempts]
    | false =>
      by_cases hf : r.result < 0 ∧ r.result ≠ -ETIMEDOUT
      · rw [pollLoop_cons_fatal _ _ _ _ hf]
        simp [closes, openAttempts]
      · rw [pollLoop_cons_go _ _ _ _ hf]
        obtain ⟨h1, h2⟩ := ih r.signal
        constructor
        · rw [← List.singleton_append, closes_append, closes_append, closes_iterationOutput, h1]
          simp [closes]
        · rw [← List.singleton_append, openAttempts_append, openAttempts_append,
            openAttempts_iterationOutput, h2]
          simp [openAttempts]

/-! ## The decoder inside the loop -/

theorem labels_append (xs ys : List Event) : labels (xs ++ ys) = labels xs ++ labels ys := by
  simp [labels, writes]

theorem labels_cons_read (dev : usb_device) (i : Int) (xs : List Event) :
    labels (Event.usb_interrupt_read dev i :: xs) = labels xs := by
  simp [labels, writes]

theorem labels_report_off (b : Nat) : labels (report false b) = [] := by
  simp [labels, writes_report_off]

/-- A one-byte report met while the loop is running: the loop adds the read
and the report of lines 106-112 for that byte, and goes on with the rest of
the script. -/
theorem pollLoop_report_step (MYDEBUG : Bool) (dev : usb_device) (g : Bool)
    (pre : List ReadOutcome) (b : Nat) (s : String) (sig : Bool) (rs : List ReadOutcome)
    (hrun : (pollLoop MYDEBUG dev pre g).status = Status.running) :
    (pollLoop MYDEBUG dev (pre ++ ⟨1, b, s, sig⟩ :: rs) g).events
      = (pollLoop MYDEBUG dev pre g).events
        ++ Event.usb_interrupt_read dev 1
          :: (report MYDEBUG b ++ (pollLoop MYDEBUG dev rs sig).events) := by
  have hf : ¬ ((⟨1, b, s, sig⟩ : ReadOutcome).result < 0
      ∧ (⟨1, b, s, sig⟩ : ReadOutcome).result ≠ -ETIMEDOUT) := by
    simp
  rw [pollLoop_append _ _ _ _ _ hrun, pollLoop_cons_go _ _ _ _ hf]
  simp [iterationOutput]

/-- A session with a timeout and three reports, evaluated: PDF for 0x10, then
Next and Autoscan for 0x03, then all five for 0x1F. -/
theorem labels_of_three_reports :
    labels (pollLoop true (lide 1)
        [⟨-110, 0, "", false⟩, ⟨1, 0x10, "", false⟩, ⟨1, 0x03, "", false⟩,
          ⟨1, 0x1F, "", true⟩] false).events
      = ["PDF ", "Next ", "Autoscan ", "PDF ", "Next ", "Autoscan ", "Copy ", "EMail "] := by
  decide

/-- Without `MYDEBUG` no name is written, whatever the byte. -/
theorem labels_without_MYDEBUG :
    labels (pollLoop false (lide 1) [⟨1, 0x1F, "", false⟩] false).events = [] := by
  decide

/-- C6, as the code has it.  Let the loop be still running after the answers
`pre` and let the next answer be a one-byte report `b`, a byte.  The loop then
adds the read and the report of lines 106-112 for `b`, and that report holds
no button name if and only if the build is without `MYDEBUG` or none of the
five tested bits is set in `b`, that is `b AND 0x1F = 0`. -/
theorem pollLoop_labels_empty_iff (MYDEBUG : Bool) (dev : usb_device) (g : Bool)
    (pre : List ReadOutcome) (b : Nat) (s : String) (sig : Bool) (rs : List ReadOutcome)
    (hb : b < 256) (hrun : (pollLoop MYDEBUG dev pre g).status = Status.running) :
    (pollLoop MYDEBUG dev (pre ++ ⟨1, b, s, sig⟩ :: rs) g).events
        = (pollLoop MYDEBUG dev pre g).events
          ++ Event.usb_interrupt_read dev 1
            :: (report MYDEBUG b ++ (pollLoop MYDEBUG dev rs sig).events)
      ∧ labels (pollLoop MYDEBUG dev (pre ++ ⟨1, b, s, sig⟩ :: rs) g).events
        = labels (pollLoop MYDEBUG dev pre g).events
          ++ labels (report MYDEBUG b)
          ++ labels (pollLoop MYDEBUG dev rs sig).events
      ∧ (labels (report MYDEBUG b) = [] ↔ MYDEBUG = false ∨ b &&& 0x1F = 0) := by
  have hstep := pollLoop_report_step MYDEBUG dev g pre b s sig rs hrun
  refine ⟨hstep, ?_, ?_⟩
  · rw [hstep, labels_append, labels_cons_read, labels_append, List.append_assoc]
  · cases MYDEBUG with
    | false => simp [labels_report_off]
    | true =>
      rw [labels_report, ← no_button_bit_iff b hb]
      cases ISPRESSED b LIDE210_BUTTON_PDF <;>
      cases ISPRESSED b LIDE210_BUTTON_PDFNEXT <;>
      cases ISPRESSED b LIDE210_BUTTON_AUTOSCAN <;>
      cases ISPRESSED b LIDE210_BUTTON_COPY <;>
      cases ISPRESSED b LIDE210_BUTTON_EMAIL <;> simp

theorem pollLoop_labels_empty_iff_witness :
    ((0xE0 : Nat) < 256
        ∧ (pollLoop true (lide 1) [⟨0, 0, "", false⟩] false).status = Status.running)
      ∧ (labels (report true 0xE0) = [] ↔ true = false ∨ 0xE0 &&& 0x1F = 0) :=
  ⟨⟨by decide, by decide⟩,
    (pollLoop_labels_empty_iff true (lide 1) false [⟨0, 0, "", false⟩] 0xE0 "" false
      [⟨1, 0x1F, "", false⟩] (by decide) (by decide)).2.2⟩

/-! ## One device -/

theorem useScanner_fail (MYDEBUG : Bool) (usb_open : usb_device → Bool) (bus : usb_bus)
    (dev : usb_device) (g : Bool) (reads : List ReadOutcome) (h : usb_open dev = false) :
    useScanner MYDEBUG usb_open bus dev g reads
      = ⟨[Event.usb_open dev false], g, reads, Status.exited⟩ := by
  simp [useScanner, h]

theorem useScanner_exited (MYDEBUG : Bool) (usb_open : usb_device → Bool) (bus : usb_bus)
    (dev : usb_device) (g : Bool) (reads : List ReadOutcome) (h : usb_open dev = true)
    (hk : (pollLoop MYDEBUG dev reads g).status = Status.exited) :
    useScanner MYDEBUG usb_open bus dev g reads
      = ⟨Event.usb_open dev true :: (fdebugf MYDEBUG (Msg.usingScanner bus.location dev.devnum)
            ++ (pollLoop MYDEBUG dev reads g).events
            ++ fdebugf MYDEBUG (Msg.releasing bus.location dev.devnum)
            ++ [Event.usb_close dev]),
          (pollLoop MYDEBUG dev reads g).global_doexit,
          (pollLoop MYDEBUG dev reads g).rest, Status.exited⟩ := by
  simp [useScanner, h, hk]

theorem useScanner_running (MYDEBUG : Bool) (usb_open : usb_device → Bool) (bus : usb_bus)
    (dev : usb_device) (g : Bool) (reads : List ReadOutcome) (h : usb_open dev = true)
    (hk : (pollLoop MYDEBUG dev reads g).status = Status.running) :
    useScanner MYDEBUG usb_open bus dev g reads
      = ⟨Event.usb_open dev true :: (fdebugf MYDEBUG (Msg.usingScanner bus.location dev.devnum)
            ++ (pollLoop MYDEBUG dev reads g).events),
          (pollLoop MYDEBUG dev reads g).global_doexit,
          (pollLoop MYDEBUG dev reads g).rest, Status.running⟩ := by
  simp [useScanner, h, hk]

theorem useScanner_status (MYDEBUG : Bool) (usb_open : usb_device → Bool) (bus : usb_bus)
    (dev : usb_device) (g : Bool) (reads : List ReadOutcome) (h : usb_open dev = true) :
    (useScanner MYDEBUG usb_open bus dev g reads).status
      = (pollLoop MYDEBUG dev reads g).status := by
  cases hk : (pollLoop MYDEBUG dev reads g).status
  · rw [useScanner_running _ _ _ _ _ _ h hk]
  · rw [useScanner_exited _ _ _ _ _ _ h hk]

theorem useScanner_flag_set (MYDEBUG : Bool) (usb_open : usb_device → Bool) (bus : usb_bus)
    (dev : usb_device) (reads : List ReadOutcome) :
    readResults (useScanner MYDEBUG usb_open bus dev true reads).events = []
      ∧ (useScanner MYDEBUG usb_open bus dev true reads).rest = reads
      ∧ (useScanner MYDEBUG usb_open bus dev true reads).global_doexit = true
      ∧ (useScanner MYDEBUG usb_open bus dev true reads).status = Status.exited := by
  cases h : usb_open dev
  · rw [useScanner_fail _ _ _ _ _ _ h]; simp [readResults]
  · rw [useScanner_exited _ _ _ _ _ _ h (by rw [pollLoop_flag_set]), pollLoop_flag_set]
    refine ⟨?_, rfl, rfl, rfl⟩
    rw [← List.singleton_append]
    simp only [readResults_append, readResults_fdebugf]
    simp [readResults]

/-- C2 (the flag is examined first).  With `global_doexit` set, the loop
leaves at once: no event, nothing taken from the read script; a session
started with the flag set issues no read at all.  Once a signal has come
during a read (the answer `⟨i, d, s, true⟩`), the loop has left by the next
iteration whatever the script holds: no answer after that one is consumed, and
the session issued at most one read per answer up to and including it. -/
theorem pollLoop_flag_examined_first (MYDEBUG : Bool) (usb_open : usb_device → Bool)
    (bus : usb_bus) (dev : usb_device) (reads : List ReadOutcome) :
    pollLoop MYDEBUG dev reads true = ⟨[], true, reads, Status.exited⟩
      ∧ (readResults (useScanner MYDEBUG usb_open bus dev true reads).events = []
          ∧ (useScanner MYDEBUG usb_open bus dev true reads).rest = reads
          ∧ (useScanner MYDEBUG usb_open bus dev true reads).status = Status.exited)
      ∧ (∀ (g : Bool) (pre : List ReadOutcome) (i : Int) (d : Nat) (s : String)
            (post : List ReadOutcome),
          (pollLoop MYDEBUG dev (pre ++ ⟨i, d, s, true⟩ :: post) g).status = Status.exited
            ∧ post <:+ (pollLoop MYDEBUG dev (pre ++ ⟨i, d, s, true⟩ :: post) g).rest
            ∧ (readResults
                (pollLoop MYDEBUG dev (pre ++ ⟨i, d, s, true⟩ :: post) g).events).length
                ≤ pre.length + 1) := by
  refine ⟨pollLoop_flag_set _ _ _, ?_, ?_⟩
  · obtain ⟨h1, h2, _, h4⟩ := useScanner_flag_set MYDEBUG usb_open bus dev reads
    exact ⟨h1, h2, h4⟩
  · intro g pre i d s post
    exact pollLoop_signal_stops MYDEBUG dev i d s post pre g

/-- C3 (timeouts are the idle state).  When every answer of the script is a
timeout (`-ETIMEDOUT`, or `0` bytes) and no signal comes, the loop started
with the flag clear has used the whole script and is still running, it issued
exactly one read per answer, and what it wrote is one idle marker per answer
in a `MYDEBUG` build (nothing otherwise): no data line, no button name, no
error line. -/
theorem pollLoop_timeouts_keep_running (MYDEBUG : Bool) (dev : usb_device)
    (reads : List ReadOutcome)
    (h : ∀ r ∈ reads, (r.result = -ETIMEDOUT ∨ r.result = 0) ∧ r.signal = false) :
    (pollLoop MYDEBUG dev reads false).status = Status.running
      ∧ (pollLoop MYDEBUG dev reads false).rest = []
      ∧ (pollLoop MYDEBUG dev reads false).global_doexit = false
      ∧ readResults (pollLoop MYDEBUG dev reads false).events = reads.map (fun r => r.result)
      ∧ writes (pollLoop true dev reads false).events = List.replicate reads.length Msg.idle
      ∧ writes (pollLoop false dev reads false).events = [] := by
  induction reads with
  | nil => simp [pollLoop_nil, readResults, writes]
  | cons r rs ih =>
    obtain ⟨hr, hs⟩ := h r (List.mem_cons_self r rs)
    have hf : ¬ (r.result < 0 ∧ r.result ≠ -ETIMEDOUT) := by
      rcases hr with hr | hr <;> simp [hr]
    have h1 : r.result ≠ 1 := by
      rcases hr with hr | hr <;> simp [hr, ETIMEDOUT]
    obtain ⟨i1, i2, i3, i4, i5, i6⟩ := ih (fun x hx => h x (List.mem_cons_of_mem r hx))
    simp only [pollLoop_cons_go _ _ _ _ hf, hs]
    refine ⟨i1, i2, i3, ?_, ?_, ?_⟩
    · simp [readResults_cons_read, readResults_append, readResults_iterationOutput, i4]
    · rw [← List.singleton_append, writes_append, writes_append,
        writes_iterationOutput_idle r h1, i5]
      simp [writes, List.replicate_succ]
    · rw [← List.singleton_append, writes_append, writes_append,
        writes_iterationOutput_off, i6]
      simp [writes]

theorem pollLoop_timeouts_keep_running_witness :
    (∀ r ∈ [(⟨-110, 0, "", false⟩ : ReadOutcome), ⟨0, 0, "", false⟩],
        (r.result = -ETIMEDOUT ∨ r.result = 0) ∧ r.signal = false)
      ∧ (pollLoop true (lide 1) [⟨-110, 0, "", false⟩, ⟨0, 0, "", false⟩] false).status
          = Status.running
      ∧ writes (pollLoop true (lide 1) [⟨-110, 0, "", false⟩, ⟨0, 0, "", false⟩] false).events
          = [Msg.idle, Msg.idle] :=
  have h : ∀ r ∈ [(⟨-110, 0, "", false⟩ : ReadOutcome), ⟨0, 0, "", false⟩],
      (r.result = -ETIMEDOUT ∨ r.result = 0) ∧ r.signal = false := by
    simp [ETIMEDOUT]
  ⟨h, (pollLoop_timeouts_keep_running true (lide 1) _ h).1,
    (pollLoop_timeouts_keep_running true (lide 1) _ h).2.2.2.2.1⟩

/-- C4 (a read error ends the session).  Let the loop be still running after
the answers `pre`, and let the next answer `r` be negative and not
`-ETIMEDOUT`.  Then the loop adds exactly the read and one error line with the
code and the description, takes nothing after `r` from the script and leaves;
the session on an opened device then ends with the release notice (in a
`MYDEBUG` build) and `usb_close`. -/
theorem pollLoop_read_error_exits (MYDEBUG : Bool) (usb_open : usb_device → Bool)
    (bus : usb_bus) (dev : usb_device) (g : Bool) (pre : List ReadOutcome) (r : ReadOutcome)
    (rs : List ReadOutcome)
    (hrun : (pollLoop MYDEBUG dev pre g).status = Status.running)
    (hneg : r.result < 0) (hne : r.result ≠ -ETIMEDOUT) :
    pollLoop MYDEBUG dev (pre ++ r :: rs) g
        = ⟨(pollLoop MYDEBUG dev pre g).events
              ++ [Event.usb_interrupt_read dev r.result,
                  Event.fprintf (Msg.error r.result r.usb_strerror)],
            r.signal, rs, Status.exited⟩
      ∧ (usb_open dev = true →
          useScanner MYDEBUG usb_open bus dev g (pre ++ r :: rs)
            = ⟨Event.usb_open dev true
                  :: (fdebugf MYDEBUG (Msg.usingScanner bus.location dev.devnum)
                      ++ ((pollLoop MYDEBUG dev pre g).events
                          ++ [Event.usb_interrupt_read dev r.result,
                              Event.fprintf (Msg.error r.result r.usb_strerror)])
                      ++ fdebugf MYDEBUG (Msg.releasing bus.location dev.devnum)
                      ++ [Event.usb_close dev]),
                r.signal, rs, Status.exited⟩) := by
  have hloop : pollLoop MYDEBUG dev (pre ++ r :: rs) g
        = ⟨(pollLoop MYDEBUG dev pre g).events
              ++ [Event.usb_interrupt_read dev r.result,
                  Event.fprintf (Msg.error r.result r.usb_strerror)],
            r.signal, rs, Status.exited⟩ := by
    rw [pollLoop_append _ _ _ _ _ hrun, pollLoop_cons_fatal _ _ _ _ ⟨hneg, hne⟩]
  refine ⟨hloop, fun hopen => ?_⟩
  rw [useScanner_exited _ _ _ _ _ _ hopen (by rw [hloop]), hloop]

theorem pollLoop_read_error_exits_witness :
    (pollLoop true (lide 1) [⟨0, 0, "", false⟩] false).status = Status.running
      ∧ ((-5 : Int) < 0 ∧ (-5 : Int) ≠ -ETIMEDOUT)
      ∧ useScanner true (fun _ => true) ⟨1, [lide 1]⟩ (lide 1) false
            ([⟨0, 0, "", false⟩] ++ ⟨-5, 0, "io", false⟩ :: [⟨1, 16, "", false⟩])
          = ⟨[Event.usb_open (lide 1) true, Event.fprintf (Msg.usingScanner 1 1),
                Event.usb_interrupt_read (lide 1) 0, Event.fprintf Msg.idle, Event.fflush,
                Event.usb_interrupt_read (lide 1) (-5), Event.fprintf (Msg.error (-5) "io"),
                Event.fprintf (Msg.releasing 1 1), Event.usb_close (lide 1)],
              false, [⟨1, 16, "", false⟩], Status.exited⟩ :=
  ⟨by decide, by decide,
    (pollLoop_read_error_exits true (fun _ => true) ⟨1, [lide 1]⟩ (lide 1) false
      [⟨0, 0, "", false⟩] ⟨-5, 0, "io", false⟩ [⟨1, 16, "", false⟩]
      (by decide) (by decide) (by decide)).2 rfl⟩

/-- C5 (the handle is closed exactly once, last).  For a device that
`usb_open` opened: when the session has ended, its events are the open, then
events among which there is no close and no further open, then one
`usb_close` of that device as the very last event; and as long as the loop is
still running nothing has been closed.  For a device that failed to open the
only event is the failed `usb_open`: no read, no close. -/
theorem useScanner_closes_exactly_once (MYDEBUG : Bool) (usb_open : usb_device → Bool)
    (bus : usb_bus) (dev : usb_device) (g : Bool) (reads : List ReadOutcome) :
    (usb_open dev = true →
        (useScanner MYDEBUG usb_open bus dev g reads).status = Status.exited →
        ∃ body, (useScanner MYDEBUG usb_open bus dev g reads).events
              = Event.usb_open dev true :: (body ++ [Event.usb_close dev])
            ∧ closes body = [] ∧ openAttempts body = []
            ∧ closes (useScanner MYDEBUG usb_open bus dev g reads).events = [dev])
      ∧ (usb_open dev = true →
        (useScanner MYDEBUG usb_open bus dev g reads).status = Status.running →
        closes (useScanner MYDEBUG usb_open bus dev g reads).events = [])
      ∧ (usb_open dev = false →
        (useScanner MYDEBUG usb_open bus dev g reads).events = [Event.usb_open dev false]) := by
  obtain ⟨hc, ho⟩ := pollLoop_closes MYDEBUG dev reads g
  refine ⟨fun hopen hst => ?_, fun hopen hst => ?_, fun hfail => ?_⟩
  · rw [useScanner_status _ _ _ _ _ _ hopen] at hst
    rw [useScanner_exited _ _ _ _ _ _ hopen hst]
    refine ⟨fdebugf MYDEBUG (Msg.usingScanner bus.location dev.devnum)
        ++ (pollLoop MYDEBUG dev reads g).events
        ++ fdebugf MYDEBUG (Msg.releasing bus.location dev.devnum), ?_, ?_, ?_, ?_⟩
    · simp
    · simp [closes_append, closes_fdebugf, hc]
    · simp [openAttempts_append, openAttempts_fdebugf, ho]
    · show closes (Event.usb_open dev true :: _) = [dev]
      rw [← List.singleton_append]
      simp only [closes_append, closes_fdebugf, hc]
      simp [closes]
  · rw [useScanner_status _ _ _ _ _ _ hopen] at hst
    rw [useScanner_running _ _ _ _ _ _ hopen hst]
    show closes (Event.usb_open dev true :: _) = []
    rw [← List.singleton_append]
    simp only [closes_append, closes_fdebugf, hc]
    simp [closes]
  · rw [useScanner_fail _ _ _ _ _ _ hfail]

theorem useScanner_closes_exactly_once_witness :
    (useScanner true (fun _ => true) ⟨1, [lide 1]⟩ (lide 1) false
        [⟨1, 16, "", true⟩, ⟨0, 0, "", false⟩]).status = Status.exited
      ∧ ∃ body, (useScanner true (fun _ => true) ⟨1, [lide 1]⟩ (lide 1) false
            [⟨1, 16, "", true⟩, ⟨0, 0, "", false⟩]).events
              = Event.usb_open (lide 1) true :: (body ++ [Event.usb_close (lide 1)])
          ∧ closes body = [] ∧ openAttempts body = []
          ∧ closes (useScanner true (fun _ => true) ⟨1, [lide 1]⟩ (lide 1) false
              [⟨1, 16, "", true⟩, ⟨0, 0, "", false⟩]).events = [lide 1] :=
  ⟨by decide,
    (useScanner_closes_exactly_once true (fun _ => true) ⟨1, [lide 1]⟩ (lide 1) false
      [⟨1, 16, "", true⟩, ⟨0, 0, "", false⟩]).1 rfl (by decide)⟩

/-! ## The enumeration -/

theorem scanDevices_no_match (MYDEBUG : Bool) (usb_open : usb_device → Bool) (bus : usb_bus)
    (g : Bool) (reads : List ReadOutcome) (more : List usb_device) (pre : List usb_device)
    (hpre : ∀ d ∈ pre,
      ¬ (d.idVendor = USBDEV_VENDOR_CANON ∧ d.idProduct = USBDEV_PRODUCT_LIDE210)) :
    scanDevices MYDEBUG usb_open bus g reads (pre ++ more)
      = scanDevices MYDEBUG usb_open bus g reads more := by
  induction pre with
  | nil => rfl
  | cons d ds ih =>
    have hd := hpre d (List.mem_cons_self d ds)
    rw [List.cons_append]
    simp only [scanDevices, hd, if_false]
    exact ih (fun x hx => hpre x (List.mem_cons_of_mem d hx))

theorem scanDevices_match (MYDEBUG : Bool) (usb_open : usb_device → Bool) (bus : usb_bus)
    (g : Bool) (reads : List ReadOutcome) (dev : usb_device) (post : List usb_device)
    (hdev : dev.idVendor = USBDEV_VENDOR_CANON ∧ dev.idProduct = USBDEV_PRODUCT_LIDE210) :
    scanDevices MYDEBUG usb_open bus g reads (dev :: post)
      = useScanner MYDEBUG usb_open bus dev g reads := by
  simp only [scanDevices, hdev, and_self, if_true]

/-- What the scan of one bus comes to: nothing when no device matches, else
`useScanner` on the first matching device. -/
theorem scanDevices_cases (MYDEBUG : Bool) (usb_open : usb_device → Bool) (bus : usb_bus)
    (g : Bool) (reads : List ReadOutcome) (devs : List usb_device) :
    scanDevices MYDEBUG usb_open bus g reads devs = ⟨[], g, reads, Status.exited⟩
      ∨ ∃ dev ∈ devs, scanDevices MYDEBUG usb_open bus g reads devs
          = useScanner MYDEBUG usb_open bus dev g reads := by
  induction devs with
  | nil => left; rfl
  | cons d ds ih =>
    by_cases hd : d.idVendor = USBDEV_VENDOR_CANON ∧ d.idProduct = USBDEV_PRODUCT_LIDE210
    · right
      exact ⟨d, List.mem_cons_self d ds, scanDevices_match _ _ _ _ _ _ _ hd⟩
    · have e : scanDevices MYDEBUG usb_open bus g reads (d :: ds)
          = scanDevices MYDEBUG usb_open bus g reads ds := by
        simp only [scanDevices, hd, if_false]
      rw [e]
      rcases ih with h | ⟨dev, hmem, h⟩
      · left; exact h
      · right; exact ⟨dev, List.mem_cons_of_mem d hmem, h⟩

theorem scanBusses_nil (MYDEBUG : Bool) (usb_open : usb_device → Bool) (g : Bool)
    (reads : List ReadOutcome) :
    scanBusses MYDEBUG usb_open [] g reads = ⟨[], g, reads, Status.exited⟩ := by
  simp [scanBusses]

theorem scanBusses_cons_running (MYDEBUG : Bool) (usb_open : usb_device → Bool) (bus : usb_bus)
    (more : List usb_bus) (g : Bool) (reads : List ReadOutcome)
    (hk : (scanDevices MYDEBUG usb_open bus g reads bus.devices).status = Status.running) :
    scanBusses MYDEBUG usb_open (bus :: more) g reads
      = scanDevices MYDEBUG usb_open bus g reads bus.devices := by
  simp [scanBusses, hk]

theorem scanBusses_cons_exited (MYDEBUG : Bool) (usb_open : usb_device → Bool) (bus : usb_bus)
    (more : List usb_bus) (g : Bool) (reads : List ReadOutcome)
    (hk : (scanDevices MYDEBUG usb_open bus g reads bus.devices).status = Status.exited) :
    scanBusses MYDEBUG usb_open (bus :: more) g reads
      = ⟨(scanDevices MYDEBUG usb_open bus g reads bus.devices).events
            ++ (scanBusses MYDEBUG usb_open more
                (scanDevices MYDEBUG usb_open bus g reads bus.devices).global_doexit
                (scanDevices MYDEBUG usb_open bus g reads bus.devices).rest).events,
          (scanBusses MYDEBUG usb_open more
                (scanDevices MYDEBUG usb_open bus g reads bus.devices).global_doexit
                (scanDevices MYDEBUG usb_open bus g reads bus.devices).rest).global_doexit,
          (scanBusses MYDEBUG usb_open more
                (scanDevices MYDEBUG usb_open bus g reads bus.devices).global_doexit
                (scanDevices MYDEBUG usb_open bus g reads bus.devices).rest).rest,
          (scanBusses MYDEBUG usb_open more
                (scanDevices MYDEBUG usb_open bus g reads bus.devices).global_doexit
                (scanDevices MYDEBUG usb_open bus g reads bus.devices).rest).status⟩ := by
  simp [scanBusses, hk]

/-! ### With the flag set nothing is read -/

theorem scanDevices_flag_set (MYDEBUG : Bool) (usb_open : usb_device → Bool) (bus : usb_bus)
    (reads : List ReadOutcome) (devs : List usb_device) :
    readResults (scanDevices MYDEBUG usb_open bus true reads devs).events = []
      ∧ (scanDevices MYDEBUG usb_open bus true reads devs).rest = reads
      ∧ (scanDevices MYDEBUG usb_open bus true reads devs).global_doexit = true
      ∧ (scanDevices MYDEBUG usb_open bus true reads devs).status = Status.exited := by
  rcases scanDevices_cases MYDEBUG usb_open bus true reads devs with h | ⟨dev, _, h⟩
  · rw [h]; simp [readResults]
  · rw [h]; exact useScanner_flag_set _ _ _ _ _

theorem scanBusses_flag_set (MYDEBUG : Bool) (usb_open : usb_device → Bool)
    (reads : List ReadOutcome) (busses : List usb_bus) :
    readResults (scanBusses MYDEBUG usb_open busses true reads).events = []
      ∧ (scanBusses MYDEBUG usb_open busses true reads).rest = reads
      ∧ (scanBusses MYDEBUG usb_open busses true reads).global_doexit = true
      ∧ (scanBusses MYDEBUG usb_open busses true reads).status = Status.exited := by
  induction busses with
  | nil => rw [scanBusses_nil]; simp [readResults]
  | cons bus more ih =>
    obtain ⟨h1, h2, h3, h4⟩ := scanDevices_flag_set MYDEBUG usb_open bus reads bus.devices
    obtain ⟨i1, i2, i3, i4⟩ := ih
    rw [scanBusses_cons_exited _ _ _ _ _ _ h4, h2, h3]
    exact ⟨by rw [readResults_append, h1, i1]; rfl, i2, i3, i4⟩

/-! ### Without `MYDEBUG` only error lines are written -/

theorem ErrorLinesOnly.mono (reads more : List ReadOutcome) (evs : List Event)
    (hs : reads <:+ more) (h : ErrorLinesOnly reads evs) : ErrorLinesOnly more evs := by
  intro m hm
  obtain ⟨r, hr, hrest⟩ := h m hm
  exact ⟨r, hs.subset hr, hrest⟩

theorem ErrorLinesOnly.append (reads : List ReadOutcome) (xs ys : List Event)
    (hx : ErrorLinesOnly reads xs) (hy : ErrorLinesOnly reads ys) :
    ErrorLinesOnly reads (xs ++ ys) := by
  intro m hm
  rw [writes_append, List.mem_append] at hm
  rcases hm with hm | hm
  · exact hx m hm
  · exact hy m hm

theorem ErrorLinesOnly.of_no_writes (reads : List ReadOutcome) (evs : List Event)
    (h : writes evs = []) : ErrorLinesOnly reads evs := by
  intro m hm
  rw [h] at hm
  cases hm

theorem ErrorLinesOnly.cons (reads : List ReadOutcome) (e : Event) (xs : List Event)
    (he : writes [e] = []) (hx : ErrorLinesOnly reads xs) : ErrorLinesOnly reads (e :: xs) := by
  have h := ErrorLinesOnly.append reads [e] xs (ErrorLinesOnly.of_no_writes _ _ he) hx
  simpa using h

theorem pollLoop_errorLinesOnly (dev : usb_device) (reads : List ReadOutcome) :
    ∀ g, ErrorLinesOnly reads (pollLoop false dev reads g).events := by
  induction reads with
  | nil =>
    intro g
    apply ErrorLinesOnly.of_no_writes
    cases g <;> simp [pollLoop, writes]
  | cons r rs ih =>
    intro g
    cases g with
    | true =>
      apply ErrorLinesOnly.of_no_writes
      simp [pollLoop_flag_set, writes]
    | false =>
      by_cases hf : r.result < 0 ∧ r.result ≠ -ETIMEDOUT
      · rw [pollLoop_cons_fatal _ _ _ _ hf]
        intro m hm
        have hm2 : m = Msg.error r.result r.usb_strerror := by
          simpa [writes] using hm
        exact ⟨r, List.mem_cons_self r rs, hf.1, hf.2, hm2⟩
      · rw [pollLoop_cons_go _ _ _ _ hf]
        refine ErrorLinesOnly.cons _ _ _ (by simp [writes]) ?_
        apply ErrorLinesOnly.append
        · exact ErrorLinesOnly.of_no_writes _ _ (writes_iterationOutput_off r)
        · exact ErrorLinesOnly.mono _ _ _ (List.suffix_cons r rs) (ih r.signal)

theorem useScanner_errorLinesOnly (usb_open : usb_device → Bool) (bus : usb_bus)
    (dev : usb_device) (g : Bool) (reads : List ReadOutcome) :
    ErrorLinesOnly reads (useScanner false usb_open bus dev g reads).events
      ∧ (useScanner false usb_open bus dev g reads).rest <:+ reads := by
  cases hopen : usb_open dev
  · rw [useScanner_fail _ _ _ _ _ _ hopen]
    exact ⟨ErrorLinesOnly.of_no_writes _ _ (by simp [writes]), List.suffix_refl reads⟩
  · have hloop := pollLoop_errorLinesOnly dev reads g
    have hsuf := pollLoop_rest_suffix false dev reads g
    have hopenEv : writes [Event.usb_open dev true] = [] := by simp [writes]
    cases hk : (pollLoop false dev reads g).status
    · rw [useScanner_running _ _ _ _ _ _ hopen hk]
      refine ⟨?_, hsuf⟩
      exact ErrorLinesOnly.cons _ _ _ hopenEv
        (ErrorLinesOnly.append _ _ _
          (ErrorLinesOnly.of_no_writes _ _ (writes_fdebugf_off _)) hloop)
    · rw [useScanner_exited _ _ _ _ _ _ hopen hk]
      refine ⟨?_, hsuf⟩
      refine ErrorLinesOnly.cons _ _ _ hopenEv ?_
      refine ErrorLinesOnly.append _ _ _ ?_
        (ErrorLinesOnly.of_no_writes _ _ (by simp [writes]))
      refine ErrorLinesOnly.append _ _ _ ?_
        (ErrorLinesOnly.of_no_writes _ _ (writes_fdebugf_off _))
      exact ErrorLinesOnly.append _ _ _
        (ErrorLinesOnly.of_no_writes _ _ (writes_fdebugf_off _)) hloop

theorem scanDevices_errorLinesOnly (usb_open : usb_device → Bool) (bus : usb_bus)
    (g : Bool) (reads : List ReadOutcome) (devs : List usb_device) :
    ErrorLinesOnly reads (scanDevices false usb_open bus g reads devs).events
      ∧ (scanDevices false usb_open bus g reads devs).rest <:+ reads := by
  rcases scanDevices_cases false usb_open bus g reads devs with h | ⟨dev, _, h⟩
  · rw [h]
    exact ⟨ErrorLinesOnly.of_no_writes _ _ (by simp [writes]), List.suffix_refl reads⟩
  · rw [h]; exact useScanner_errorLinesOnly _ _ _ _ _

theorem scanBusses_errorLinesOnly (usb_open : usb_device → Bool) (busses : List usb_bus) :
    ∀ (g : Bool) (reads : List ReadOutcome),
      ErrorLinesOnly reads (scanBusses false usb_open busses g reads).events
        ∧ (scanBusses false usb_open busses g reads).rest <:+ reads := by
  induction busses with
  | nil =>
    intro g reads
    rw [scanBusses_nil]
    exact ⟨ErrorLinesOnly.of_no_writes _ _ (by simp [writes]), List.suffix_refl reads⟩
  | cons bus more ih =>
    intro g reads
    obtain ⟨h1, h2⟩ := scanDevices_errorLinesOnly usb_open bus g reads bus.devices
    cases hk : (scanDevices false usb_open bus g reads bus.devices).status
    · rw [scanBusses_cons_running _ _ _ _ _ _ hk]
      exact ⟨h1, h2⟩
    · rw [scanBusses_cons_exited _ _ _ _ _ _ hk]
      obtain ⟨i1, i2⟩ := ih (scanDevices false usb_open bus g reads bus.devices).global_doexit
        (scanDevices false usb_open bus g reads bus.devices).rest
      exact ⟨ErrorLinesOnly.append _ _ _ h1 (ErrorLinesOnly.mono _ _ _ h2 i1), i2.trans h2⟩

/-! ### Which devices are opened -/

theorem useScanner_openAttempts (MYDEBUG : Bool) (usb_open : usb_device → Bool) (bus : usb_bus)
    (dev : usb_device) (g : Bool) (reads : List ReadOutcome) :
    openAttempts (useScanner MYDEBUG usb_open bus dev g reads).events = [dev] := by
  obtain ⟨_, ho⟩ := pollLoop_closes MYDEBUG dev reads g
  cases hopen : usb_open dev
  · rw [useScanner_fail _ _ _ _ _ _ hopen]; simp [openAttempts]
  · cases hk : (pollLoop MYDEBUG dev reads g).status
    · rw [useScanner_running _ _ _ _ _ _ hopen hk]
      show openAttempts (Event.usb_open dev true :: _) = [dev]
      rw [← List.singleton_append]
      simp only [openAttempts_append, openAttempts_fdebugf, ho]
      simp [openAttempts]
    · rw [useScanner_exited _ _ _ _ _ _ hopen hk]
      show openAttempts (Event.usb_open dev true :: _) = [dev]
      rw [← List.singleton_append]
      simp only [openAttempts_append, openAttempts_fdebugf, ho]
      simp [openAttempts]

theorem scanDevices_openAttempts_sublist (MYDEBUG : Bool) (usb_open : usb_device → Bool)
    (bus : usb_bus) (g : Bool) (reads : List ReadOutcome) (devs : List usb_device) :
    (openAttempts (scanDevices MYDEBUG usb_open bus g reads devs).events).Sublist devs := by
  induction devs with
  | nil => simp [scanDevices, openAttempts]
  | cons d ds ih =>
    by_cases hd : d.idVendor = USBDEV_VENDOR_CANON ∧ d.idProduct = USBDEV_PRODUCT_LIDE210
    · rw [scanDevices_match _ _ _ _ _ _ _ hd, useScanner_openAttempts]
      exact List.Sublist.cons₂ d (List.nil_sublist ds)
    · have e : scanDevices MYDEBUG usb_open bus g reads (d :: ds)
          = scanDevices MYDEBUG usb_open bus g reads ds := by
        simp only [scanDevices, hd, if_false]
      rw [e]
      exact List.Sublist.cons d ih

theorem scanBusses_openAttempts_sublist (MYDEBUG : Bool) (usb_open : usb_device → Bool)
    (busses : List usb_bus) :
    ∀ (g : Bool) (reads : List ReadOutcome),
      (openAttempts (scanBusses MYDEBUG usb_open busses g reads).events).Sublist
        (enumerated busses) := by
  induction busses with
  | nil => intro g reads; simp [scanBusses_nil, openAttempts]
  | cons bus more ih =>
    intro g reads
    have h1 := scanDevices_openAttempts_sublist MYDEBUG usb_open bus g reads bus.devices
    have e : enumerated (bus :: more) = bus.devices ++ enumerated more := by
      simp [enumerated]
    rw [e]
    cases hk : (scanDevices MYDEBUG usb_open bus g reads bus.devices).status
    · rw [scanBusses_cons_running _ _ _ _ _ _ hk]
      exact h1.trans (List.sublist_append_left _ _)
    · rw [scanBusses_cons_exited _ _ _ _ _ _ hk]
      show (openAttempts (_ ++ _)).Sublist _
      rw [openAttempts_append]
      exact List.Sublist.append h1 (ih _ _)

/-! ## The claims on the whole run -/

/-- C7, as the code has it.  In a build without `MYDEBUG`, whatever the
handler installations, the openable devices, the enumeration and the read
script: every message the run writes is the error line of a negative,
non-timeout answer of the script, carrying its code and description.  A run
whose script holds no such answer writes nothing. -/
theorem main_quiet_except_read_errors (rINT rTERM : Int) (sig1 sig2 : Bool)
    (usb_open : usb_device → Bool) (busses : List usb_bus) (reads : List ReadOutcome) :
    (∀ m ∈ writes (main false rINT rTERM sig1 sig2 usb_open busses reads).events,
        ∃ r ∈ reads, r.result < 0 ∧ r.result ≠ -ETIMEDOUT
          ∧ m = Msg.error r.result r.usb_strerror)
      ∧ ((∀ r ∈ reads, ¬ (r.result < 0 ∧ r.result ≠ -ETIMEDOUT)) →
          writes (main false rINT rTERM sig1 sig2 usb_open busses reads).events = []) := by
  have h := (scanBusses_errorLinesOnly usb_open busses
    (install_handlers rINT rTERM sig1 sig2) reads).1
  refine ⟨h, fun hno => ?_⟩
  apply List.eq_nil_iff_forall_not_mem.mpr
  intro m hm
  obtain ⟨r, hr, h1, h2, _⟩ := h m hm
  exact hno r hr ⟨h1, h2⟩

theorem main_quiet_except_read_errors_witness :
    (∀ r ∈ [(⟨1, 0x1F, "", false⟩ : ReadOutcome), ⟨-110, 0, "", true⟩],
        ¬ (r.result < 0 ∧ r.result ≠ -ETIMEDOUT))
      ∧ writes (main false 0 0 false false (fun _ => true) [⟨1, [lide 1]⟩]
          [⟨1, 0x1F, "", false⟩, ⟨-110, 0, "", true⟩]).events = [] :=
  have h : ∀ r ∈ [(⟨1, 0x1F, "", false⟩ : ReadOutcome), ⟨-110, 0, "", true⟩],
      ¬ (r.result < 0 ∧ r.result ≠ -ETIMEDOUT) := by
    simp [ETIMEDOUT]
  ⟨h, (main_quiet_except_read_errors 0 0 false false (fun _ => true) [⟨1, [lide 1]⟩]
    [⟨1, 0x1F, "", false⟩, ⟨-110, 0, "", true⟩]).2 h⟩

/-- C7 as stated fails: without `MYDEBUG`, a read answering `-5` on the one
scanner makes the run write the error line. -/
theorem main_without_MYDEBUG_writes_error :
    writes (main false 0 0 false false (fun _ => true) [⟨1, [lide 1]⟩]
        [⟨-5, 0, "io", false⟩]).events = [Msg.error (-5) "io"]
      ∧ writes (main false 0 0 false false (fun _ => true) [⟨1, [lide 1]⟩]
        [⟨-5, 0, "io", false⟩]).events ≠ [] := by
  constructor <;> decide

/-- C8 at its failing input: two buses with one LiDE 210 each, both openable.
The session on the first ends on a read error; the run then opens the scanner
of the second bus and reads from it. -/
theorem main_polls_scanner_on_later_bus :
    (main true 0 0 false false (fun _ => true) [⟨1, [lide 1]⟩, ⟨2, [lide 2]⟩]
        [⟨-5, 0, "io", false⟩, ⟨1, 0x10, "", true⟩]).events
      = [Event.usb_open (lide 1) true, Event.fprintf (Msg.usingScanner 1 1),
          Event.usb_interrupt_read (lide 1) (-5), Event.fprintf (Msg.error (-5) "io"),
          Event.fprintf (Msg.releasing 1 1), Event.usb_close (lide 1),
          Event.usb_open (lide 2) true, Event.fprintf (Msg.usingScanner 2 2),
          Event.usb_interrupt_read (lide 2) 1, Event.fprintf (Msg.data 0x10),
          Event.fprintf (Msg.label "PDF "), Event.fprintf Msg.dataEnd,
          Event.fprintf (Msg.releasing 2 2), Event.usb_close (lide 2)] := by
  decide

/-- C9 as stated fails: on one bus with two LiDE 210 of which only the second
can be opened, the whole run is the failed `usb_open` of the first: nothing is
written, and the second is never opened. -/
theorem main_failed_open_ends_bus_scan :
    (main true 0 0 false false (fun d => decide (d.devnum = 2)) [⟨1, [lide 1, lide 2]⟩]
        [⟨1, 0x10, "", false⟩]).events = [Event.usb_open (lide 1) false] := by
  decide

/-- C9, as the code has it.  Let `dev` be the first matching device of a bus
(none of the devices `pre` before it matches) and let `usb_open` fail on it.
Then the scan of that bus is exactly the one failed `usb_open`: nothing is
written, `dev` is neither read nor closed nor opened again, no device `post`
behind it on the bus is opened, and flag and read script are untouched.  Over
a whole run the devices opened are a sublist of the enumeration, so that with
an enumeration free of repetitions no device is opened twice. -/
theorem scanDevices_failed_open (MYDEBUG : Bool) (usb_open : usb_device → Bool) (bus : usb_bus)
    (g : Bool) (reads : List ReadOutcome) (pre : List usb_device) (dev : usb_device)
    (post : List usb_device)
    (hpre : ∀ d ∈ pre,
      ¬ (d.idVendor = USBDEV_VENDOR_CANON ∧ d.idProduct = USBDEV_PRODUCT_LIDE210))
    (hdev : dev.idVendor = USBDEV_VENDOR_CANON ∧ dev.idProduct = USBDEV_PRODUCT_LIDE210)
    (hfail : usb_open dev = false) :
    scanDevices MYDEBUG usb_open bus g reads (pre ++ dev :: post)
        = ⟨[Event.usb_open dev false], g, reads, Status.exited⟩
      ∧ (∀ (rINT rTERM : Int) (sig1 sig2 : Bool) (busses : List usb_bus),
          (enumerated busses).Nodup →
          (openAttempts
            (main MYDEBUG rINT rTERM sig1 sig2 usb_open busses reads).events).Nodup) := by
  constructor
  · rw [scanDevices_no_match _ _ _ _ _ _ _ hpre, scanDevices_match _ _ _ _ _ _ _ hdev,
      useScanner_fail _ _ _ _ _ _ hfail]
  · intro rINT rTERM sig1 sig2 busses hnd
    exact List.Nodup.sublist (scanBusses_openAttempts_sublist MYDEBUG usb_open busses _ _) hnd

theorem scanDevices_failed_open_witness :
    scanDevices true (fun d => decide (d.devnum = 2)) ⟨1, [⟨1, 2, 7⟩, lide 1, lide 2]⟩ false
        [⟨1, 0x10, "", false⟩] ([⟨1, 2, 7⟩] ++ lide 1 :: [lide 2])
      = ⟨[Event.usb_open (lide 1) false], false, [⟨1, 0x10, "", false⟩], Status.exited⟩ :=
  (scanDevices_failed_open true (fun d => decide (d.devnum = 2)) ⟨1, [⟨1, 2, 7⟩, lide 1, lide 2]⟩
    false [⟨1, 0x10, "", false⟩] [⟨1, 2, 7⟩] (lide 1) [lide 2]
    (by decide) (by decide) (by decide)).1

/-- C10 (a failed installation counts as a request to stop).  If either
`sigaction` call returns `-1`, `global_doexit` is set when `install_handlers`
returns, whatever the other call returned and whether or not a signal came;
the run that follows issues no read on any device, consumes nothing of the
read script and comes to its end.  If neither call returns `-1` and no signal
came, the flag is clear when `install_handlers` returns. -/
theorem install_handlers_failure_requests_exit (rINT rTERM : Int) :
    ((rINT = -1 ∨ rTERM = -1) →
        ∀ (sig1 sig2 : Bool), install_handlers rINT rTERM sig1 sig2 = true
          ∧ ∀ (MYDEBUG : Bool) (usb_open : usb_device → Bool) (busses : List usb_bus)
              (reads : List ReadOutcome),
            readResults (main MYDEBUG rINT rTERM sig1 sig2 usb_open busses reads).events = []
              ∧ (main MYDEBUG rINT rTERM sig1 sig2 usb_open busses reads).rest = reads
              ∧ (main MYDEBUG rINT rTERM sig1 sig2 usb_open busses reads).status
                  = Status.exited)
      ∧ (rINT ≠ -1 → rTERM ≠ -1 → install_handlers rINT rTERM false false = false) := by
  constructor
  · intro hfail sig1 sig2
    have hflag : install_handlers rINT rTERM sig1 sig2 = true := by
      rcases hfail with h | h <;> cases sig1 <;> cases sig2 <;>
        by_cases h1 : rINT = -1 <;> by_cases h2 : rTERM = -1 <;>
        simp_all [install_handlers, exithandler]
    refine ⟨hflag, fun MYDEBUG usb_open busses reads => ?_⟩
    unfold main
    rw [hflag]
    obtain ⟨h1, h2, _, h4⟩ := scanBusses_flag_set MYDEBUG usb_open reads busses
    exact ⟨h1, h2, h4⟩
  · intro h1 h2
    simp [install_handlers, h1, h2]

theorem install_handlers_failure_requests_exit_witness :
    (install_handlers (-1) 0 false false = true
        ∧ readResults (main true (-1) 0 false false (fun _ => true) [⟨1, [lide 1]⟩]
            [⟨1, 0x10, "", false⟩]).events = [])
      ∧ install_handlers 0 0 false false = false :=
  ⟨⟨((install_handlers_failure_requests_exit (-1) 0).1 (Or.inl rfl) false false).1,
      (((install_handlers_failure_requests_exit (-1) 0).1 (Or.inl rfl) false false).2
        true (fun _ => true) [⟨1, [lide 1]⟩] [⟨1, 0x10, "", false⟩]).1⟩,
    (install_handlers_failure_requests_exit 0 0).2 (by decide) (by decide)⟩

end Lide210
